import Mathlib

/-!
# Formal model of the damped-oscillator validation scripts

Shallow embedding, over `ℚ`, of the analysis and test code of the
repository (src/src/graficas_oscilador.py, src/scripts/test/test_energia.py,
src/scripts/test/scripts/test/test_validacion.py).  Trajectories are lists of
rational samples; the numpy reductions used by the scripts (`np.trapz`,
`np.diff`, `np.sign`, `np.max`) are translated one-for-one below.
-/

set_option allowUnsafeReducibility true

set_option maxRecDepth 8192

attribute [local semireducible] Rat.mul Rat.div Rat.add Rat.sub Rat.inv

/-- Reference mass, `MASA = 0.5` in test_validacion.py. -/
def MASA : ℚ := 1 / 2

/-- Reference spring constant, `CONSTANTE_RESORTE = 4.0` in test_validacion.py. -/
def CONSTANTE_RESORTE : ℚ := 4

/-- Theoretical initial energy, `ENERGIA_TEORICA = 2.0` in test_energia.py. -/
def ENERGIA_TEORICA : ℚ := 2

/-- Relative-error tolerance, `TOLERANCIA_ERROR = 0.01` in test_energia.py. -/
def TOLERANCIA_ERROR : ℚ := 1 / 100

/-- Noise floor `1e-10` used by `test_energia_decrece` in test_energia.py. -/
def pisoRuido : ℚ := 1 / 10 ^ 10

/-- Damping coefficients examined by every sweep, `VALORES_B = [0.5, 2.0, 3.0]`. -/
def VALORES_B : List ℚ := [1 / 2, 2, 3]

/-- Model of `np.diff`: the list of consecutive differences `a[i+1] - a[i]`. -/
def npDiff {α : Type} [Sub α] : List α → List α
  | a :: b :: rest => (b - a) :: npDiff (b :: rest)
  | _ => []

/-- Model of `np.trapz y x`: the trapezoidal rule, summing
`(x[i+1] - x[i]) * (y[i] + y[i+1]) / 2` over the sample intervals. -/
def npTrapz : List ℚ → List ℚ → ℚ
  | y0 :: y1 :: ys, x0 :: x1 :: xs =>
      (x1 - x0) * (y0 + y1) / 2 + npTrapz (y1 :: ys) (x1 :: xs)
  | _, _ => 0

/-- Function `calcular_energia_disipada` of graficas_oscilador.py:
`b * np.trapz(velocidad**2, tiempo)`. -/
def calcular_energia_disipada (tiempo velocidad : List ℚ) (b : ℚ) : ℚ :=
  b * npTrapz (velocidad.map (fun v => v ^ 2)) tiempo

/-- The body of `test_energia_disipada` of test_energia.py for one coefficient:
`integral_v2 = np.trapz(v**2, t)`, `energia_disipada = b * integral_v2`,
`error_relativo = abs(energia_disipada - ENERGIA_TEORICA) / ENERGIA_TEORICA`,
and the assertion `error_relativo < TOLERANCIA_ERROR`. -/
def test_energia_disipada_check (t v : List ℚ) (b : ℚ) : Bool :=
  let integral_v2 := npTrapz (v.map (fun q => q ^ 2)) t
  let energia_disipada := b * integral_v2
  let error_relativo := |energia_disipada - ENERGIA_TEORICA| / ENERGIA_TEORICA
  decide (error_relativo < TOLERANCIA_ERROR)

/-- The body of `test_energia_decrece` of test_energia.py:
`diferencias = np.diff(E)`, `incrementos = diferencias[diferencias > 1e-10]`,
and the assertion `len(incrementos) == 0`. -/
def test_energia_decrece_check (E : List ℚ) : Bool :=
  ((npDiff E).filter (fun d => decide (pisoRuido < d))).length == 0

/-- Check `test_energia_decrece` passes exactly when no consecutive difference
exceeds the noise floor. -/
theorem test_energia_decrece_iff (E : List ℚ) :
    test_energia_decrece_check E = true ↔ ∀ d ∈ npDiff E, d ≤ pisoRuido := by
  unfold test_energia_decrece_check
  rw [beq_iff_eq, List.length_eq_zero, List.filter_eq_nil_iff]
  constructor
  · intro h d hd
    have := h d hd
    simp only [decide_eq_true_eq] at this
    exact le_of_not_lt this
  · intro h d hd
    simp only [decide_eq_true_eq]
    exact not_lt_of_le (h d hd)

/-- Pairwise bounds on `npDiff` are exactly a `Chain'` over the list. -/
theorem npDiff_le_iff_chain (c : ℚ) :
    ∀ E : List ℚ, (∀ d ∈ npDiff E, d ≤ c) ↔ List.Chain' (fun a b => b - a ≤ c) E
  | [] => by simp [npDiff]
  | [a] => by simp [npDiff]
  | a :: b :: rest => by
      rw [List.chain'_cons, ← npDiff_le_iff_chain c (b :: rest)]
      simp only [npDiff, List.mem_cons, forall_eq_or_imp]

/-- C1.  For every trajectory and damping coefficient b, the dissipated-energy
check of test_energia.py computes b times the trapezoidal-rule integral of
v squared over t (the same value `calcular_energia_disipada` of
graficas_oscilador.py computes) and passes exactly when the relative
difference between this value and the theoretical initial energy
`ENERGIA_TEORICA = 2` is strictly less than `TOLERANCIA_ERROR = 1 / 100`. -/
theorem claim_C1_energia_disipada (t v : List ℚ) (b : ℚ) :
    test_energia_disipada_check t v b = true ↔
      |calcular_energia_disipada t v b - 2| / 2 < 1 / 100 := by
  simp only [test_energia_disipada_check, calcular_energia_disipada,
    ENERGIA_TEORICA, TOLERANCIA_ERROR, decide_eq_true_eq]

/-- C4.  For every energy sequence E, the energy-monotonicity check of
`test_energia_decrece` fails exactly when some consecutive difference
`E[i+1] - E[i]` is strictly greater than the noise floor `pisoRuido = 1e-10`;
with zero such increases the check passes. -/
theorem claim_C4_monotonia_energia (E : List ℚ) :
    test_energia_decrece_check E = true ↔
      ∀ (i : ℕ) (h : i < E.length - 1),
        E.get ⟨i + 1, by omega⟩ - E.get ⟨i, by omega⟩ ≤ pisoRuido := by
  rw [test_energia_decrece_iff, npDiff_le_iff_chain, List.chain'_iff_get]

/-- Strictly increasing staircase: `n + 1` samples starting at `a`, each
exactly `pisoRuido` above the previous one. -/
def escaleraCreciente : ℕ → ℚ → List ℚ
  | 0, a => [a]
  | n + 1, a => a :: escaleraCreciente (n) (a + pisoRuido)

theorem escaleraCreciente_ne_nil (n : ℕ) (a : ℚ) : escaleraCreciente n a ≠ [] := by
  cases n <;> simp [escaleraCreciente]

theorem escaleraCreciente_headD (n : ℕ) (a d : ℚ) :
    (escaleraCreciente n a).headD d = a := by
  cases n <;> rfl

theorem npDiff_cons_of_ne_nil (a : ℚ) {l : List ℚ} (h : l ≠ []) :
    npDiff (a :: l) = (l.headD 0 - a) :: npDiff l := by
  cases l with
  | nil => exact absurd rfl h
  | cons b rest => rfl

theorem npDiff_escaleraCreciente : ∀ (n : ℕ) (a : ℚ),
    npDiff (escaleraCreciente n a) = List.replicate n pisoRuido
  | 0, _ => rfl
  | n + 1, a => by
      rw [show escaleraCreciente (n + 1) a = a :: escaleraCreciente n (a + pisoRuido)
            from rfl,
        npDiff_cons_of_ne_nil a (escaleraCreciente_ne_nil n _),
        escaleraCreciente_headD, npDiff_escaleraCreciente n (a + pisoRuido),
        List.replicate_succ]
      congr 1
      ring

theorem escaleraCreciente_getLastD : ∀ (n : ℕ) (a d : ℚ),
    (escaleraCreciente n a).getLastD d = a + n * pisoRuido
  | 0, a, d => by simp [escaleraCreciente]
  | n + 1, a, d => by
      rw [show escaleraCreciente (n + 1) a = a :: escaleraCreciente n (a + pisoRuido)
            from rfl,
        List.getLastD_cons, escaleraCreciente_getLastD n (a + pisoRuido) a]
      push_cast
      ring

/-- C9.  The monotonicity check inspects only pairwise consecutive
differences, never cumulative drift: every sequence whose consecutive
increases are each at most `pisoRuido` passes, and for every bound M there is
a strictly increasing sequence that passes while rising from 0 to above M. -/
theorem claim_C9_deriva_acumulada :
    (∀ E : List ℚ, (∀ d ∈ npDiff E, d ≤ pisoRuido) →
        test_energia_decrece_check E = true) ∧
    (∀ M : ℚ, ∃ E : List ℚ,
        test_energia_decrece_check E = true ∧
        (∀ d ∈ npDiff E, 0 < d ∧ d ≤ pisoRuido) ∧
        E.headD 0 = 0 ∧ M < E.getLastD 0) := by
  constructor
  · intro E h
    exact (test_energia_decrece_iff E).mpr h
  · intro M
    refine ⟨escaleraCreciente (⌈M / pisoRuido⌉₊ + 1) 0, ?_, ?_, ?_, ?_⟩
    · rw [test_energia_decrece_iff]
      intro d hd
      rw [npDiff_escaleraCreciente] at hd
      rw [List.eq_of_mem_replicate hd]
    · intro d hd
      rw [npDiff_escaleraCreciente] at hd
      rw [List.eq_of_mem_replicate hd]
      norm_num [pisoRuido]
    · exact escaleraCreciente_headD _ _ _
    · rw [escaleraCreciente_getLastD]
      have hpos : (0 : ℚ) < pisoRuido := by norm_num [pisoRuido]
      have hceil : M / pisoRuido ≤ (⌈M / pisoRuido⌉₊ : ℚ) := Nat.le_ceil _
      have hmul : M / pisoRuido * pisoRuido ≤ (⌈M / pisoRuido⌉₊ : ℚ) * pisoRuido :=
        mul_le_mul_of_nonneg_right hceil hpos.le
      rw [div_mul_cancel₀ _ hpos.ne'] at hmul
      push_cast
      nlinarith

/-- Damping regimes distinguished by `test_identificacion_regimenes`. -/
inductive Regimen : Type
  | Subamortiguado
  | CasiCritico
  | SobreamortiguadoCritico
deriving DecidableEq

/-- np.sign of a rational sample. -/
def npSign (q : ℚ) : ℤ := if 0 < q then 1 else if q < 0 then -1 else 0

/-- Lines `signos = np.sign(x)`, `cambios_signo = np.where(np.diff(signos))[0]`:
the number of index positions whose sign differs from the next sample's
(test_validacion.py, test_identificacion_regimenes). -/
def cambios_signo (x : List ℚ) : ℕ :=
  ((npDiff (x.map npSign)).filter (fun d => d != 0)).length

/-- Line `num_oscilaciones = len(cambios_signo) // 2`. -/
def num_oscilaciones (x : List ℚ) : ℕ := cambios_signo x / 2

/-- The if-chain classification of `test_identificacion_regimenes`. -/
def identificar_regimen (x : List ℚ) : Regimen :=
  if num_oscilaciones x > 3 then Regimen.Subamortiguado
  else if num_oscilaciones x > 0 then Regimen.CasiCritico
  else Regimen.SobreamortiguadoCritico

/-- Direct count of the index positions i with sign(x[i]) distinct from
sign(x[i+1]), as the claim words it. -/
def cuentaCambiosSigno : List ℚ → ℕ
  | a :: b :: rest =>
      (if npSign a ≠ npSign b then 1 else 0) + cuentaCambiosSigno (b :: rest)
  | _ => 0

theorem cambios_signo_eq_cuenta : ∀ x : List ℚ, cambios_signo x = cuentaCambiosSigno x
  | [] => rfl
  | [_] => rfl
  | a :: b :: rest => by
      have ih := cambios_signo_eq_cuenta (b :: rest)
      simp only [cambios_signo, List.map_cons, npDiff, List.filter_cons] at ih ⊢
      by_cases h : npSign a = npSign b
      · simp [cuentaCambiosSigno, h, ih, sub_eq_zero]
      · have hne : npSign b - npSign a ≠ 0 := sub_ne_zero.mpr (Ne.symm h)
        simp [cuentaCambiosSigno, h, ih, hne, Nat.add_comm]

/-- C5.  The regime classifier counts positions with differing adjacent
signs, halves that count, and classifies: more than 3 oscillations means
underdamped, 1 to 3 near-critical, 0 overdamped/critical; 8 crossings give
underdamped, 2 give near-critical, 0 give overdamped/critical. -/
theorem claim_C5_clasificacion_regimen :
    (∀ x : List ℚ, cambios_signo x = cuentaCambiosSigno x) ∧
    (∀ x : List ℚ, num_oscilaciones x = cuentaCambiosSigno x / 2) ∧
    (∀ x : List ℚ,
      identificar_regimen x = Regimen.Subamortiguado ↔ 3 < cuentaCambiosSigno x / 2) ∧
    (∀ x : List ℚ,
      identificar_regimen x = Regimen.CasiCritico ↔
        1 ≤ cuentaCambiosSigno x / 2 ∧ cuentaCambiosSigno x / 2 ≤ 3) ∧
    (∀ x : List ℚ,
      identificar_regimen x = Regimen.SobreamortiguadoCritico ↔
        cuentaCambiosSigno x / 2 = 0) ∧
    (cambios_signo [1, -1, 1, -1, 1, -1, 1, -1, 1] = 8 ∧
      identificar_regimen [1, -1, 1, -1, 1, -1, 1, -1, 1] = Regimen.Subamortiguado) ∧
    (cambios_signo [1, -1, 1] = 2 ∧
      identificar_regimen [1, -1, 1] = Regimen.CasiCritico) ∧
    (cambios_signo [1, 1, 1] = 0 ∧
      identificar_regimen [1, 1, 1] = Regimen.SobreamortiguadoCritico) := by
  refine ⟨cambios_signo_eq_cuenta, ?_, ?_, ?_, ?_, by decide, by decide, by decide⟩
  · intro x
    rw [num_oscilaciones, cambios_signo_eq_cuenta]
  all_goals
    intro x
    rw [identificar_regimen, num_oscilaciones, cambios_signo_eq_cuenta]
    split_ifs with h1 h2 <;>
      simp only [iff_true, iff_false, reduceCtorEq, not_and, not_le, true_iff,
        false_iff] <;>
      omega

/-- C10.  In the regime classifier a sample that is exactly 0 has sign 0,
distinct from both positive neighbors, so touching zero once between two
same-sign samples contributes two counted sign changes (one oscillation) and
yields the near-critical classification even though the trajectory never
strictly changes sign. -/
theorem claim_C10_toque_cero (a c : ℚ) (ha : 0 < a) (hc : 0 < c) :
    npSign 0 = 0 ∧ npSign 0 ≠ npSign a ∧ npSign 0 ≠ npSign c ∧
    cambios_signo [a, 0, c] = 2 ∧ num_oscilaciones [a, 0, c] = 1 ∧
    identificar_regimen [a, 0, c] = Regimen.CasiCritico ∧
    List.Chain' (fun p q => ¬ p * q < 0) [a, 0, c] := by
  have hsa : npSign a = 1 := if_pos ha
  have hsc : npSign c = 1 := if_pos hc
  have hs0 : npSign (0 : ℚ) = 0 := by simp [npSign]
  have hcs : cambios_signo [a, 0, c] = 2 := by
    simp [cambios_signo, npDiff, hsa, hsc, hs0]
  have hno : num_oscilaciones [a, 0, c] = 1 := by
    rw [num_oscilaciones, hcs]
  refine ⟨hs0, ?_, ?_, hcs, hno, ?_, ?_⟩
  · rw [hs0, hsa]; decide
  · rw [hs0, hsc]; decide
  · rw [identificar_regimen, hno]; rfl
  · simp [List.chain'_cons, List.chain'_singleton]

/-- Witness for C10 at the concrete trajectory [1, 0, 1]. -/
theorem claim_C10_testigo :
    npSign 0 = 0 ∧ npSign 0 ≠ npSign 1 ∧ npSign 0 ≠ npSign 1 ∧
    cambios_signo [1, 0, 1] = 2 ∧ num_oscilaciones [1, 0, 1] = 1 ∧
    identificar_regimen [1, 0, 1] = Regimen.CasiCritico ∧
    List.Chain' (fun p q => ¬ p * q < 0) ([1, 0, 1] : List ℚ) :=
  claim_C10_toque_cero 1 1 one_pos one_pos

/-- np.max over a sample window (np.max raises on an empty array; every
window below is nonempty, where this total version starts the fold at the
head). -/
def npMax (l : List ℚ) : ℚ := l.foldl max (l.headD 0)

/-- The body of `test_convergencia_temporal` of test_energia.py:
`punto_cuarto = len(E) // 4`, `energia_final = E[punto_cuarto:]`, and the
assertion `np.max(energia_final) < 0.05 * ENERGIA_TEORICA`. -/
def test_convergencia_temporal_check (E : List ℚ) : Bool :=
  let punto_cuarto := E.length / 4
  let energia_final := E.drop punto_cuarto
  decide (npMax energia_final < 5 / 100 * ENERGIA_TEORICA)

/-- The body of `test_comportamiento_asintotico` of test_validacion.py:
`ultimo_cuarto = len(x) // 4`, `x_final = x[ultimo_cuarto:]`,
`v_final = v[ultimo_cuarto:]`, and the assertions
`np.max(np.abs(x_final)) < 0.1` and `np.max(np.abs(v_final)) < 0.1`. -/
def test_comportamiento_asintotico_check (x v : List ℚ) : Bool :=
  let ultimo_cuarto := x.length / 4
  let x_final := x.drop ultimo_cuarto
  let v_final := v.drop ultimo_cuarto
  decide (npMax (x_final.map (fun q => |q|)) < 1 / 10 ∧
    npMax (v_final.map (fun q => |q|)) < 1 / 10)

/-- The last `len // 4` samples of a list: the window the claim and the spec
describe, "the final quarter of samples (by index count)". -/
def ventanaUltimoCuarto (l : List ℚ) : List ℚ := l.drop (l.length - l.length / 4)

/-- The asymptotic-decay check as the claim words it, over the last `N // 4`
samples; declared to compare with the code's checks, whose slice `[N//4:]`
drops only the first `N // 4` samples and keeps the final three quarters. -/
def asymptotic_decay_claim (x v E : List ℚ) : Bool :=
  decide (npMax (ventanaUltimoCuarto E) < 5 / 100 * ENERGIA_TEORICA ∧
    npMax ((ventanaUltimoCuarto x).map (fun q => |q|)) < 1 / 10 ∧
    npMax ((ventanaUltimoCuarto v).map (fun q => |q|)) < 1 / 10)

/-- C3.  The asymptotic-decay checks slice `E[len(E)//4:]`, keeping the final
three quarters of the samples, while their own comments and the claim say the
final quarter: at E = [2, 1, 1, 0, 0, 0, 0, 0] (x = v = 0, N = 8) the code's
window still holds E[2] = 1 and the check fails, while the claimed window,
the last 2 samples [0, 0], passes. -/
theorem claim_C3_ventana_asintotica :
    test_convergencia_temporal_check [2, 1, 1, 0, 0, 0, 0, 0] = false ∧
    test_comportamiento_asintotico_check (List.replicate 8 0) (List.replicate 8 0) = true ∧
    asymptotic_decay_claim (List.replicate 8 0) (List.replicate 8 0)
      [2, 1, 1, 0, 0, 0, 0, 0] = true ∧
    ([2, 1, 1, 0, 0, 0, 0, 0] : List ℚ).drop (8 / 4) ≠
      ventanaUltimoCuarto [2, 1, 1, 0, 0, 0, 0, 0] := by
  refine ⟨by decide, by decide, by decide, by decide⟩

/-- np.isclose with its default tolerances, rtol = 1e-5 and atol = 1e-8. -/
def npIsClose (a b : ℚ) : Bool := decide (|a - b| ≤ 1 / 10 ^ 8 + 1 / 10 ^ 5 * |b|)

/-- The value `energia_teorica` computed by `test_energia_inicial` of
test_validacion.py.  The line reads
`0.5 * self.MASA * v0*2 + 0.5 * self.CONSTANTE_RESORTE * x0*2`: it
multiplies by 2 where its own comment, `E = 0.5*m*v² + 0.5*k*x²`, squares. -/
def energia_inicial_codigo (m k x0 v0 : ℚ) : ℚ :=
  1 / 2 * m * v0 * 2 + 1 / 2 * k * x0 * 2

/-- The initial-energy formula stated by the comment above that line, by the
spec and by `energia_esperada = 2.0`. -/
def energia_inicial_formula (m k x0 v0 : ℚ) : ℚ :=
  1 / 2 * m * v0 ^ 2 + 1 / 2 * k * x0 ^ 2

/-- Check `test_energia_inicial` asserts `np.isclose(energia_teorica, 2.0)` at
x0 = 1, v0 = 0. -/
def test_energia_inicial_check : Bool :=
  npIsClose (energia_inicial_codigo MASA CONSTANTE_RESORTE 1 0) 2

/-- C2.  At the reference inputs m = 0.5, k = 4.0, x0 = 1.0, v0 = 0.0 the
code's expression (with `*2` in place of squaring) yields 4, the documented
formula yields 2, and the initial-energy check therefore fails. -/
theorem claim_C2_energia_inicial :
    energia_inicial_codigo MASA CONSTANTE_RESORTE 1 0 = 4 ∧
    energia_inicial_formula MASA CONSTANTE_RESORTE 1 0 = 2 ∧
    test_energia_inicial_check = false := by
  refine ⟨by norm_num [energia_inicial_codigo, MASA, CONSTANTE_RESORTE],
    by norm_num [energia_inicial_formula, MASA, CONSTANTE_RESORTE], by decide⟩

/-- One trajectory as loaded from a `resultados_b<b>.dat` file. -/
structure Trayectoria : Type where
  t : List ℚ
  x : List ℚ
  v : List ℚ
  E : List ℚ
deriving DecidableEq

/-- scipy.integrate.simpson over sample points (t, y): the composite
non-uniform Simpson rule over consecutive pairs of intervals.  scipy's
treatment of an even sample count is version-dependent, so every instance
proved below has an odd sample count, where this composite rule is exactly
the one scipy applies. -/
def simpsonPares : List (ℚ × ℚ) → ℚ
  | (t0, y0) :: (t1, y1) :: (t2, y2) :: rest =>
      (((t1 - t0) + (t2 - t1)) / 6) *
          ((2 - (t2 - t1) / (t1 - t0)) * y0 +
            ((t1 - t0) + (t2 - t1)) ^ 2 / ((t1 - t0) * (t2 - t1)) * y1 +
            (2 - (t1 - t0) / (t2 - t1)) * y2) +
        simpsonPares ((t2, y2) :: rest)
  | _ => 0

/-- Line `integral_trapz = integrate.trapz(v**2, t)` of test_convergencia_integral
(test_validacion.py). -/
def integral_trapz (t v : List ℚ) : ℚ := npTrapz (v.map (fun q => q ^ 2)) t

/-- Line `integral_simpson = integrate.simpson(v**2, t)`. -/
def integral_simpson (t v : List ℚ) : ℚ :=
  simpsonPares (t.zip (v.map (fun q => q ^ 2)))

/-- Line `integral_rect = np.sum(v**2) * (t[1] - t[0])`; python raises an
IndexError on fewer than 2 samples, so results below assume `2 ≤ t.length`. -/
def integral_rect (t v : List ℚ) : ℚ :=
  (v.map (fun q => q ^ 2)).sum * (t.getD 1 0 - t.getD 0 0)

/-- The two assertions of `test_convergencia_integral`:
`abs(trapz - simpson) / trapz < 0.01` and `abs(trapz - rect) / trapz < 0.05`.
In floating point a zero trapezoid integral turns both quotients into nan or
inf and the assertions fail, hence the explicit zero branch. -/
def test_convergencia_integral_check (t v : List ℚ) : Bool :=
  if integral_trapz t v = 0 then false
  else
    decide (|integral_trapz t v - integral_simpson t v| / integral_trapz t v < 1 / 100) &&
    decide (|integral_trapz t v - integral_rect t v| / integral_trapz t v < 5 / 100)

/-- Outcome of one pytest test: passed, failed by an assertion, or skipped. -/
inductive ResultadoTest : Type
  | aprobado
  | fallido
  | omitido
deriving DecidableEq

/-- The file system the scripts see: the trajectory stored for a damping
coefficient, or none when its `resultados_b<b>.dat` file is absent. -/
abbrev Archivos : Type := ℚ → Option Trayectoria

/-- Check `test_convergencia_integral` at file level: `b = 0.5` is hardcoded, so
only the b = 0.5 file is read; a missing file skips the test
(`pytest.skip`), and otherwise the two quadrature assertions run. -/
def test_convergencia_integral_env (archivos : Archivos) : ResultadoTest :=
  match archivos (1 / 2) with
  | none => ResultadoTest.omitido
  | some d =>
      if test_convergencia_integral_check d.t d.v then ResultadoTest.aprobado
      else ResultadoTest.fallido

/-- Uniform 31-sample time grid 0, 1, ..., 30. -/
def tiempoUniforme : List ℚ := (List.range 31).map (fun i => (i : ℚ))

/-- Constant velocity 1 on the 31-sample grid: there trapz and Simpson agree
exactly and the rectangle rule is within 5 percent. -/
def velocidadConstante : List ℚ := List.replicate 31 1

/-- Three samples whose squared-velocity profile [0, 1, 0] makes the
trapezoid and Simpson integrals disagree by a third. -/
def tPico : List ℚ := [0, 1, 2]

/-- Velocity samples [0, 1, 0] on `tPico`. -/
def vPico : List ℚ := [0, 1, 0]

/-- An environment whose b = 2.0 trajectory has quadrature disagreement of
one third, while the b = 0.5 and b = 3.0 trajectories agree. -/
def archivosB2Discrepante : Archivos := fun b =>
  if b = 2 then some ⟨tPico, [], vPico, []⟩
  else if b = 1 / 2 ∨ b = 3 then some ⟨tiempoUniforme, [], velocidadConstante, []⟩
  else none

/-- C6 counterexample.  The trapz-Simpson disagreement on the data
[0, 1, 0] is one third, far above 1 percent, and the cross-check then fails
its assertion (a fatal failure of this check, not a non-fatal warning); and
when that data belongs to b = 2.0 the whole test still passes, because the
cross-check reads only the b = 0.5 file. -/
theorem claim_C6_contraejemplo :
    ¬ (|integral_trapz tPico vPico - integral_simpson tPico vPico| /
        integral_trapz tPico vPico < 1 / 100) ∧
    test_convergencia_integral_check tPico vPico = false ∧
    archivosB2Discrepante 2 = some ⟨tPico, [], vPico, []⟩ ∧
    test_convergencia_integral_env archivosB2Discrepante = ResultadoTest.aprobado := by
  refine ⟨by decide, by decide, by decide, by decide⟩

/-- C6 amended.  For b = 0.5 only (the checked environments agreeing at
b = 0.5 give equal outcomes), on trajectories with at least two samples, an
odd sample count and a nonzero trapezoid integral, the cross-check passes
exactly when the trapz-Simpson relative disagreement is below 1 percent and
the trapz-rectangle relative disagreement is below 5 percent; otherwise the
check fails via its assertions. -/
theorem claim_C6_convergencia_cuadraturas (t v : List ℚ)
    (hlen : 2 ≤ t.length) (himpar : t.length % 2 = 1)
    (hT : integral_trapz t v ≠ 0) :
    (test_convergencia_integral_check t v = true ↔
      |integral_trapz t v - integral_simpson t v| / integral_trapz t v < 1 / 100 ∧
      |integral_trapz t v - integral_rect t v| / integral_trapz t v < 5 / 100) ∧
    (∀ archivos archivos' : Archivos, archivos (1 / 2) = archivos' (1 / 2) →
      test_convergencia_integral_env archivos = test_convergencia_integral_env archivos') := by
  constructor
  · rw [test_convergencia_integral_check, if_neg hT, Bool.and_eq_true,
      decide_eq_true_eq, decide_eq_true_eq]
  · intro archivos archivos' h
    rw [test_convergencia_integral_env, test_convergencia_integral_env, h]

/-- Witness for C6 at the 31-sample uniform grid with constant velocity. -/
theorem claim_C6_testigo :
    (test_convergencia_integral_check tiempoUniforme velocidadConstante = true ↔
      |integral_trapz tiempoUniforme velocidadConstante -
          integral_simpson tiempoUniforme velocidadConstante| /
        integral_trapz tiempoUniforme velocidadConstante < 1 / 100 ∧
      |integral_trapz tiempoUniforme velocidadConstante -
          integral_rect tiempoUniforme velocidadConstante| /
        integral_trapz tiempoUniforme velocidadConstante < 5 / 100) ∧
    (∀ archivos archivos' : Archivos, archivos (1 / 2) = archivos' (1 / 2) →
      test_convergencia_integral_env archivos = test_convergencia_integral_env archivos') :=
  claim_C6_convergencia_cuadraturas tiempoUniforme velocidadConstante
    (by decide) (by decide) (by decide)

/-- The coefficients whose checks a test_energia.py sweep actually performs:
`cargar_datos` calls `pytest.skip` on a missing file, which raises and ends
the whole test, so the loop stops at the first coefficient whose file is
absent and no later coefficient is checked. -/
def coeficientesVerificadosSkip (archivos : Archivos) : List ℚ → List ℚ
  | [] => []
  | b :: resto =>
      match archivos b with
      | none => []
      | some _ => b :: coeficientesVerificadosSkip archivos resto

/-- The coefficients whose checks a test_validacion.py sweep performs: those
loops guard each coefficient with `if not os.path.exists: continue`, so a
missing file skips only that coefficient. -/
def coeficientesVerificadosContinue (archivos : Archivos) : List ℚ → List ℚ
  | [] => []
  | b :: resto =>
      match archivos b with
      | none => coeficientesVerificadosContinue archivos resto
      | some _ => b :: coeficientesVerificadosContinue archivos resto

/-- Check `test_archivos_existen` of test_energia.py: asserts that the file of
every coefficient in VALORES_B exists; one missing file fails the test. -/
def test_archivos_existen_check (archivos : Archivos) : Bool :=
  VALORES_B.all (fun b => (archivos b).isSome)

/-- An environment in which the b = 0.5 file is absent and the b = 2.0 and
b = 3.0 files are present. -/
def archivosSinMedio : Archivos := fun b =>
  if b = 1 / 2 then none
  else if b = 2 ∨ b = 3 then some ⟨[], [], [], []⟩
  else none

/-- C7 counterexample.  With the b = 0.5 file absent, the test_energia.py
sweeps (which reach `pytest.skip` inside `cargar_datos`) check no
coefficient at all, b = 2.0 included, so not every sweep-style check still
executes the b = 2.0 and b = 3.0 checks; the test_validacion.py sweeps do
check exactly b = 2.0 and b = 3.0, and the strict existence check fails. -/
theorem claim_C7_contraejemplo :
    coeficientesVerificadosSkip archivosSinMedio VALORES_B = [] ∧
    ¬ (2 : ℚ) ∈ coeficientesVerificadosSkip archivosSinMedio VALORES_B ∧
    coeficientesVerificadosContinue archivosSinMedio VALORES_B = [2, 3] ∧
    test_archivos_existen_check archivosSinMedio = false := by
  refine ⟨by decide, by decide, by decide, by decide⟩

/-- C7 amended.  When the b = 0.5 file is absent and the b = 2.0 and b = 3.0
files are present, the `continue`-guarded sweeps of test_validacion.py skip
only b = 0.5 and still check b = 2.0 and b = 3.0 independently, and the
strict all-files-exist check fails; but the sweeps of test_energia.py, whose
loader calls `pytest.skip`, abort at b = 0.5 and check no coefficient. -/
theorem claim_C7_archivo_faltante (archivos : Archivos)
    (h05 : archivos (1 / 2) = none)
    (h2 : (archivos 2).isSome) (h3 : (archivos 3).isSome) :
    coeficientesVerificadosContinue archivos VALORES_B = [2, 3] ∧
    coeficientesVerificadosSkip archivos VALORES_B = [] ∧
    test_archivos_existen_check archivos = false := by
  obtain ⟨d2, hd2⟩ := Option.isSome_iff_exists.mp h2
  obtain ⟨d3, hd3⟩ := Option.isSome_iff_exists.mp h3
  refine ⟨?_, ?_, ?_⟩
  · rw [VALORES_B]
    rw [coeficientesVerificadosContinue, h05]
    rw [coeficientesVerificadosContinue, hd2]
    rw [coeficientesVerificadosContinue, hd3]
    rfl
  · rw [VALORES_B, coeficientesVerificadosSkip, h05]
  · rw [test_archivos_existen_check, VALORES_B]
    simp only [List.all_cons, List.all_nil]
    rw [h05]
    rfl

/-- Witness for C7 at the concrete environment missing only b = 0.5. -/
theorem claim_C7_testigo :
    coeficientesVerificadosContinue archivosSinMedio VALORES_B = [2, 3] ∧
    coeficientesVerificadosSkip archivosSinMedio VALORES_B = [] ∧
    test_archivos_existen_check archivosSinMedio = false :=
  claim_C7_archivo_faltante archivosSinMedio (by decide) (by decide) (by decide)

/-- A text line of a data file, modelled as its characters. -/
abbrev Linea : Type := List Char

/-- Whitespace as python's argumentless `str.split()` treats it. -/
def esEspacio (c : Char) : Bool := c == ' ' || c == '\t' || c == '\r' || c == '\n'

/-- Python's `linea.startswith('#')`. -/
def esComentario : Linea → Bool
  | '#' :: _ => true
  | _ => false

/-- Helper for `campos`, carrying the current token reversed. -/
def camposAux : Linea → List Char → List (List Char)
  | [], actual => if actual.isEmpty then [] else [actual.reverse]
  | c :: resto, actual =>
      if esEspacio c then
        if actual.isEmpty then camposAux resto []
        else actual.reverse :: camposAux resto []
      else camposAux resto (c :: actual)

/-- The whitespace-separated fields of a line, as `linea.split()` yields
them: runs of whitespace separate tokens and produce no empty fields. -/
def campos (l : Linea) : List (List Char) := camposAux l []

/-- Numeric value of a run of decimal digits. -/
def valorDigitos (cs : List Char) : ℕ :=
  cs.foldl (fun n c => n * 10 + (c.toNat - 48)) 0

/-- Strips one optional leading sign, telling whether it was a minus. -/
def quitarSigno : List Char → Bool × List Char
  | '-' :: resto => (true, resto)
  | '+' :: resto => (false, resto)
  | cs => (false, cs)

/-- The mantissa `digits[.digits]` of a float literal, with at least one
digit present. -/
def parteMantisa (cs : List Char) : Option ℚ :=
  match cs.dropWhile Char.isDigit with
  | [] =>
      if (cs.takeWhile Char.isDigit).isEmpty then none
      else some ((valorDigitos (cs.takeWhile Char.isDigit) : ℚ))
  | '.' :: frac =>
      if frac.all Char.isDigit &&
          !((cs.takeWhile Char.isDigit).isEmpty && frac.isEmpty) then
        some ((valorDigitos (cs.takeWhile Char.isDigit) : ℚ) +
          (valorDigitos frac : ℚ) / (10 : ℚ) ^ frac.length)
      else none
  | _ => none

/-- The optional exponent part `(e|E)[sign]digits` of a float literal. -/
def parteExponente : List Char → Option ℤ
  | [] => some 0
  | _ :: resto =>
      match quitarSigno resto with
      | (neg, ds) =>
          if !ds.isEmpty && ds.all Char.isDigit then
            some (if neg then -(valorDigitos ds : ℤ) else (valorDigitos ds : ℤ))
          else none

/-- Parses one token `[sign]digits[.digits][(e|E)[sign]digits]` into an
exact rational: the float syntax the Fortran-generated data files use.  A
token outside this syntax yields none, which the loader turns into an
error exactly as np.loadtxt raises ValueError on a non-numeric field. -/
def parseRat? (token : List Char) : Option ℚ :=
  match quitarSigno token with
  | (neg, cs) =>
      match parteMantisa (cs.takeWhile (fun c => !(c == 'e' || c == 'E'))),
          parteExponente (cs.dropWhile (fun c => !(c == 'e' || c == 'E'))) with
      | some m, some e => some ((if neg then -m else m) * (10 : ℚ) ^ e)
      | _, _ => none

/-- Failure cases of `cargar_datos` of graficas_oscilador.py; each one
reaches the `except Exception` handler (or the FileNotFoundError one) and
exits, so no partial result escapes. -/
inductive ErrorCarga : Type
  | valorInvalido
  | sinDatos
  | columnasInconsistentes
  | formaUnidimensional
  | columnasIncorrectas
deriving DecidableEq

/-- One row as np.loadtxt parses it: every field must be numeric. -/
def parseFila : List (List Char) → Except ErrorCarga (List ℚ)
  | [] => Except.ok []
  | s :: resto =>
      match parseRat? s with
      | none => Except.error ErrorCarga.valorInvalido
      | some q =>
          match parseFila resto with
          | Except.ok qs => Except.ok (q :: qs)
          | Except.error e => Except.error e

/-- Inline comment stripping of np.loadtxt (default `comments='#'`): each
line is cut at its first '#' and the remainder discarded before the fields
are tokenized. -/
def sinComentarioInterno (l : Linea) : Linea :=
  l.takeWhile (fun c => !(c == '#'))

/-- The fields np.loadtxt parses from one line: the whitespace-separated
tokens of the line cut at its first '#'. -/
def camposDatos (l : Linea) : List (List Char) :=
  campos (sinComentarioInterno l)

/-- All rows in order; np.loadtxt strips inline comments from each line and
stops at the first malformed one. -/
def parseFilas : List Linea → Except ErrorCarga (List (List ℚ))
  | [] => Except.ok []
  | l :: resto =>
      match parseFila (camposDatos l) with
      | Except.error e => Except.error e
      | Except.ok f =>
          match parseFilas resto with
          | Except.ok fs => Except.ok (f :: fs)
          | Except.error e => Except.error e

/-- The lines np.loadtxt keeps: `cargar_datos` first filters out lines
beginning with '#', and np.loadtxt itself skips every line that is blank
once its inline '#' comment is stripped. -/
def lineasDatos (lineas : List Linea) : List Linea :=
  (lineas.filter (fun l => !(esComentario l))).filter
    (fun l => !(camposDatos l).isEmpty)

/-- Column i of the parsed rows, as `datos.T` exposes it. -/
def columna (i : ℕ) (filas : List (List ℚ)) : List ℚ :=
  filas.map (fun f => f.getD i 0)

/-- Function `cargar_datos` of graficas_oscilador.py over the lines of one file:
comment lines are dropped, the rest feed np.loadtxt, which requires
rectangular all-numeric data, raises on an empty result, and returns a 1-D
array for a single row (making the later `datos.shape[1]` raise an
IndexError); then `datos.shape[1] != 4` is rejected and the four columns
are returned.  Every failure path ends in `sys.exit(1)`: an error value
here, never a partial result. -/
def cargar_datos (lineas : List Linea) :
    Except ErrorCarga (List ℚ × List ℚ × List ℚ × List ℚ) :=
  match parseFilas (lineasDatos lineas) with
  | Except.error e => Except.error e
  | Except.ok filas =>
      if filas.isEmpty then Except.error ErrorCarga.sinDatos
      else if !(filas.all (fun f => f.length == (filas.headD []).length)) then
        Except.error ErrorCarga.columnasInconsistentes
      else if filas.length == 1 then Except.error ErrorCarga.formaUnidimensional
      else if (filas.headD []).length != 4 then
        Except.error ErrorCarga.columnasIncorrectas
      else Except.ok (columna 0 filas, columna 1 filas, columna 2 filas, columna 3 filas)

/-- Parsing a row preserves the field count. -/
theorem parseFila_length : ∀ {ts : List (List Char)} {qs : List ℚ},
    parseFila ts = Except.ok qs → qs.length = ts.length
  | [], qs, h => by
      rw [parseFila] at h
      cases h
      rfl
  | s :: resto, qs, h => by
      rw [parseFila] at h
      cases hp : parseRat? s with
      | none => rw [hp] at h; cases h
      | some q =>
          rw [hp] at h
          cases hr : parseFila resto with
          | error e => rw [hr] at h; cases h
          | ok qs2 =>
              rw [hr] at h
              cases h
              simp [parseFila_length hr]

/-- Every retained line has a parsed row with as many entries as the line
has effective (comment-stripped) fields. -/
theorem parseFilas_mem : ∀ {ls : List Linea} {fs : List (List ℚ)} {l : Linea},
    parseFilas ls = Except.ok fs → l ∈ ls →
      ∃ f ∈ fs, f.length = (camposDatos l).length
  | [], _, l, _, hm => absurd hm (List.not_mem_nil l)
  | l0 :: resto, fs, l, h, hm => by
      rw [parseFilas] at h
      cases hp : parseFila (camposDatos l0) with
      | error e => rw [hp] at h; cases h
      | ok f0 =>
          rw [hp] at h
          cases hr : parseFilas resto with
          | error e => rw [hr] at h; cases h
          | ok fs2 =>
              rw [hr] at h
              cases h
              rcases List.mem_cons.mp hm with h0 | hmem
              · subst h0
                exact ⟨f0, List.mem_cons_self _ _, parseFila_length hp⟩
              · obtain ⟨f, hf, hlen⟩ := parseFilas_mem hr hmem
                exact ⟨f, List.mem_cons_of_mem _ hf, hlen⟩

/-- C8.  For every input file, the loader fails whenever some retained
(non-comment, non-blank) data line does not have exactly 4 whitespace
separated fields - the fields np.loadtxt sees once the line is cut at its
first inline '#' - and in that case no partial result is produced. -/
theorem claim_C8_formato (lineas : List Linea) (l : Linea)
    (hmem : l ∈ lineasDatos lineas) (hlen : (camposDatos l).length ≠ 4) :
    (∃ e, cargar_datos lineas = Except.error e) ∧
    ∀ r, cargar_datos lineas ≠ Except.ok r := by
  have herr : ∃ e, cargar_datos lineas = Except.error e := by
    rw [cargar_datos]
    cases hp : parseFilas (lineasDatos lineas) with
    | error e => exact ⟨e, rfl⟩
    | ok filas =>
        dsimp only
        obtain ⟨f, hf, hflen⟩ := parseFilas_mem hp hmem
        cases h1 : filas.isEmpty with
        | true => exact ⟨ErrorCarga.sinDatos, rfl⟩
        | false =>
            cases h2 : filas.all (fun g => g.length == (filas.headD []).length) with
            | false => exact ⟨ErrorCarga.columnasInconsistentes, rfl⟩
            | true =>
                cases h3 : filas.length == 1 with
                | true => exact ⟨ErrorCarga.formaUnidimensional, rfl⟩
                | false =>
                    refine ⟨ErrorCarga.columnasIncorrectas, ?_⟩
                    have heq : f.length = (filas.headD []).length := by
                      have hx := List.all_eq_true.mp h2 f hf
                      simpa using hx
                    have hh4 : ((filas.headD []).length != 4) = true := by
                      rw [bne_iff_ne]
                      omega
                    rw [hh4]
                    rfl
  refine ⟨herr, ?_⟩
  intro r hr
  obtain ⟨e, he⟩ := herr
  rw [he] at hr
  cases hr

/-- A demo file: three comment lines, one plain 4-field row, one 4-field
row carrying an inline comment, and one row with only 3 fields. -/
def lineasDemo : List Linea :=
  ["# t x v E".toList, "# oscilador amortiguado".toList, "# b = 0.50".toList,
    "0.000 1.000 0.000 2.000".toList,
    "0.001 1.000 -0.004 2.000 # nota inline".toList,
    "0.001 0.999 -0.004".toList]

/-- Witness for C8 at the demo file whose last row has only 3 fields. -/
theorem claim_C8_testigo :
    (∃ e, cargar_datos lineasDemo = Except.error e) ∧
    ∀ r, cargar_datos lineasDemo ≠ Except.ok r :=
  claim_C8_formato lineasDemo "0.001 0.999 -0.004".toList (by decide) (by decide)

/-- Sanity evaluation of the loader on a well-formed file: header comments
and effectively blank lines are dropped, an inline '#' comment after 4
fields is stripped rather than counted, fields parse as exact rationals,
and the four columns return. -/
theorem cargar_datos_ejemplo :
    cargar_datos ["# cabecera".toList, "   # en blanco sin el comentario".toList,
        "0 1 0 2 # nota".toList, "1 0.5 -0.25 1e0".toList] =
      Except.ok ([0, 1], [1, 1 / 2], [0, -(1 / 4)], [2, 1]) := by rfl
